import Mathlib

/-!
# Verification of the Baton agent core (`backend/agent.py`)

Shallow embedding of the task store (`data/dev-tasks.json` helpers), the
port allocator, the plan-phase text extraction, and the merge/test/push
integration pipeline of the Baton dispatcher, together with proofs of the
behavioural claims about them.

Modelling conventions:
* Python dicts keyed by task id become insertion-ordered association lists.
* Wall-clock timestamps (`datetime.now(timezone.utc).isoformat()`) are passed
  in explicitly as an opaque `now : String` argument.
* Subprocess invocations are abstracted by an environment recording, per
  pipeline attempt, whether each command exits with return code 0; the parts
  of exception messages interpolated from return codes and stderr are
  abstracted away, the fixed message skeletons are kept.
* The on-disk task file is a `Disk` value distinguishing a missing file, an
  unreadable file (`OSError`), undecodable contents (`json.JSONDecodeError`)
  and a successfully decoded document.
-/

set_option maxHeartbeats 1000000

namespace Baton

/-! ## Task records (the JSON task documents written by `_add_task_to_json`) -/

structure Task where
  id : String
  title : String
  content : String
  task_type : String
  status : String
  created : String
  modified : String
  worker_port : Option Nat
  error : Option String
  needs_plan_review : Bool
  plan_content : Option String
deriving DecidableEq, Repr

/-- The `data["tasks"]` dict: an insertion-ordered map from task id to task. -/
abbrev TaskStore := List (String × Task)

/-- Lookup `data["tasks"].get(task_id)`. -/
def getTask : TaskStore → String → Option Task
  | [], _ => none
  | (k, t) :: rest, task_id => if k = task_id then some t else getTask rest task_id

/-- Assignment `data["tasks"][task_id] = task`: replace the entry in place if the key is
present, otherwise append it (Python dict assignment order). -/
def setTask : TaskStore → String → Task → TaskStore
  | [], task_id, t => [(task_id, t)]
  | (k, u) :: rest, task_id, t =>
    if k = task_id then (task_id, t) :: rest else (k, u) :: setTask rest task_id t

/-- Python `str.strip()` with no argument: remove leading and trailing
whitespace.  (Defined on the character list so that it evaluates by
reduction.) -/
def pyStrip (s : String) : String :=
  String.mk (((s.data.dropWhile Char.isWhitespace).reverse.dropWhile
    Char.isWhitespace).reverse)

/-! ## The persisted file (`data/dev-tasks.json`) -/

/-- State of the `dev-tasks.json` file on disk. -/
inductive Disk
  | missing
  | unreadable
  | invalidJson
  | valid (tasks : TaskStore)
deriving DecidableEq, Repr

/-- Function `_load_dev_tasks`: return the decoded document, or the empty structure
`{"tasks": {}}` when the file is missing, unreadable, or not valid JSON. -/
def load_dev_tasks : Disk → TaskStore
  | Disk.missing => []
  | Disk.unreadable => []
  | Disk.invalidJson => []
  | Disk.valid tasks => tasks

/-- Function `_save_dev_tasks`: atomically replace the file with the given document. -/
def save_dev_tasks (tasks : TaskStore) : Disk :=
  Disk.valid tasks

/-! ## Task store operations (each loads, mutates, and saves under the lock) -/

/-- Function `_add_task_to_json`. -/
def add_task_to_json (d : Disk) (task_id title content task_type : String)
    (needs_plan_review : Bool) (now : String) : Disk :=
  let data := load_dev_tasks d
  save_dev_tasks (setTask data task_id
    { id := task_id, title := title, content := content, task_type := task_type,
      status := "pending", created := now, modified := now,
      worker_port := none, error := none,
      needs_plan_review := needs_plan_review, plan_content := none })

/-- Function `_claim_task_json`: atomically claim a pending task; returns the updated
task, or `none` (with no write) when the task is absent or not pending. -/
def claim_task_json (d : Disk) (task_id : String) (port : Option Nat) (now : String) :
    Disk × Option Task :=
  let data := load_dev_tasks d
  match getTask data task_id with
  | none => (d, none)
  | some task =>
    if task.status ≠ "pending" then (d, none)
    else
      let task' := { task with status := "in_progress", modified := now, worker_port := port }
      (save_dev_tasks (setTask data task_id task'), some task')

/-- Function `_mark_task_complete_json`. -/
def mark_task_complete_json (d : Disk) (task_id now : String) : Disk :=
  let data := load_dev_tasks d
  match getTask data task_id with
  | none => d
  | some task =>
    save_dev_tasks (setTask data task_id
      { task with status := "completed", modified := now, worker_port := none })

/-- Function `_mark_task_failed_json`. -/
def mark_task_failed_json (d : Disk) (task_id error now : String) : Disk :=
  let data := load_dev_tasks d
  match getTask data task_id with
  | none => d
  | some task =>
    save_dev_tasks (setTask data task_id
      { task with
        status := "failed"
        modified := now
        worker_port := none
        error := some error })

/-- Function `_mark_task_plan_review_json`. -/
def mark_task_plan_review_json (d : Disk) (task_id : String)
    (plan_content : Option String) (now : String) : Disk :=
  let data := load_dev_tasks d
  match getTask data task_id with
  | none => d
  | some task =>
    save_dev_tasks (setTask data task_id
      { task with
        status := "plan_review"
        modified := now
        worker_port := none
        plan_content := match plan_content with
          | some p => some p
          | none => task.plan_content })

/-- Function `_mark_task_pending_json`. -/
def mark_task_pending_json (d : Disk) (task_id now : String) : Disk :=
  let data := load_dev_tasks d
  match getTask data task_id with
  | none => d
  | some task =>
    save_dev_tasks (setTask data task_id
      { task with status := "pending", modified := now, worker_port := none })

/-- The `revise_plan` endpoint: 404 unless the task is in `plan_review`;
then append non-blank feedback to the content wrapped in a
`## Revision Feedback` section, clear the plan, and move to pending. -/
def revise_plan (d : Disk) (task_id feedback now : String) : Except String Disk :=
  let data := load_dev_tasks d
  match getTask data task_id with
  | none => Except.error "Task not found in plan_review"
  | some t =>
    if t.status ≠ "plan_review" then Except.error "Task not found in plan_review"
    else
      match getTask data task_id with
      | none => Except.ok d
      | some task =>
        let content' :=
          if pyStrip feedback ≠ "" then
            task.content ++ "\n\n## Revision Feedback\n\n" ++ feedback ++ "\n"
          else task.content
        Except.ok (save_dev_tasks (setTask data task_id
          { task with
            content := content'
            plan_content := none
            status := "pending"
            modified := now
            worker_port := none }))

/-- The `rerun_task` endpoint: 404 unless the task is failed; then clear the
error and reset to pending. -/
def rerun_task (d : Disk) (task_id now : String) : Except String Disk :=
  let data := load_dev_tasks d
  match getTask data task_id with
  | none => Except.error "Task not found in failed"
  | some t =>
    if t.status ≠ "failed" then Except.error "Task not found in failed"
    else
      match getTask data task_id with
      | none => Except.ok d
      | some task =>
        Except.ok (save_dev_tasks (setTask data task_id
          { task with
            status := "pending"
            modified := now
            worker_port := none
            error := none }))

/-! ## Task listing (`_list_tasks`) -/

def TASK_TYPE_VALUES : List String := ["feature", "bugfix", "refactor", "chore", "docs", "test"]

/-- Python truthiness of an optional string (`bool(t.get(...))`). -/
def pyTruthy : Option String → Bool
  | none => false
  | some s => s ≠ ""

structure TaskSummary where
  id : String
  filename : String
  status : String
  title : String
  modified : String
  has_error_log : Bool
  task_type : String
  needs_plan_review : Bool
  has_plan : Bool
deriving DecidableEq, Repr

/-- Function `_list_tasks`: the summaries of the tasks with the given status, in store
order.  The final in-place re-sort by parsed `modified` timestamp (with a
wall-clock fallback for unparseable dates) only permutes the result and is
not modelled; `modified` is kept as the raw stored string. -/
def list_tasks (status : String) (d : Disk) : List TaskSummary :=
  let data := load_dev_tasks d
  (data.filter (fun p => p.2.status == status)).map (fun p =>
    { id := p.1, filename := p.1 ++ ".md", status := status,
      title := p.2.title, modified := p.2.modified,
      has_error_log := pyTruthy p.2.error,
      task_type := if TASK_TYPE_VALUES.contains p.2.task_type then p.2.task_type else "feature",
      needs_plan_review := p.2.needs_plan_review,
      has_plan := pyTruthy p.2.plan_content })

/-! ## Port allocator (`PortAllocator`) -/

structure PortAllocator where
  port_range : Finset ℕ
  in_use : Finset ℕ
deriving DecidableEq

/-- Constructor `PortAllocator(start, end)`: `self._range = set(range(start, end + 1))`. -/
def PortAllocator.init (start stop : ℕ) : PortAllocator :=
  { port_range := Finset.Icc start stop, in_use := ∅ }

/-- Method `allocate()`: return `min(self._range - self._in_use)` and mark it in use,
or raise `RuntimeError("No ports available")` when the difference is empty. -/
def PortAllocator.allocate (pa : PortAllocator) : Except String (ℕ × PortAllocator) :=
  let available := pa.port_range \ pa.in_use
  if h : available.Nonempty then
    let port := available.min' h
    Except.ok (port, { pa with in_use := insert port pa.in_use })
  else
    Except.error "No ports available"

/-- Method `release(port)`: `self._in_use.discard(port)` (idempotent). -/
def PortAllocator.release (pa : PortAllocator) (port : ℕ) : PortAllocator :=
  { pa with in_use := pa.in_use.erase port }

/-! ## Worker event stream and plan extraction (`_execute_plan_phase`) -/

/-- A block of an `assistant` message given as a dict (`{"type": ..., "text": ...}`). -/
structure ContentBlock where
  btype : String
  text : String
deriving DecidableEq, Repr

/-- The `message` field of an `assistant` event: a plain string or a dict
with a `content` list of blocks. -/
inductive AssistantMessage
  | str (s : String)
  | blocks (content : List ContentBlock)
deriving DecidableEq, Repr

/-- A parsed worker stdout event, as classified by `_parse_log_event`. -/
inductive LogEvent
  | assistant (message : AssistantMessage)
  | tool_use (tool : String)
  | error_event (err : String)
  | result (result : String)
  | unknown
deriving DecidableEq, Repr

/-- The plan parts one event contributes in the extraction loop of
`_execute_plan_phase` (lines 748-761): a non-blank string message, every
`"text"`-typed block of a dict message, or a non-blank `result` text. -/
def planPartsOfEvent : LogEvent → List String
  | LogEvent.assistant (AssistantMessage.str s) => if pyStrip s ≠ "" then [s] else []
  | LogEvent.assistant (AssistantMessage.blocks bs) =>
      bs.filterMap (fun b => if b.btype = "text" then some b.text else none)
  | LogEvent.result r => if pyStrip r ≠ "" then [r] else []
  | _ => []

/-- The full `plan_parts` list accumulated over the event stream. -/
def extractPlanParts (events : List LogEvent) : List String :=
  events.flatMap planPartsOfEvent

/-- Assignment `plan_text = "\n\n".join(plan_parts) if plan_parts else "No plan generated."`. -/
def extractPlanText (events : List LogEvent) : String :=
  match extractPlanParts events with
  | [] => "No plan generated."
  | parts => String.intercalate "\n\n" parts

/-- Tail of the plan-phase success path: store the extracted plan text and
move the task to `plan_review` (lines 763-766). -/
def plan_phase_store_result (d : Disk) (task_id now : String)
    (events : List LogEvent) : Disk :=
  mark_task_plan_review_json d task_id (some (extractPlanText events)) now

/-! Spec-side formulations of the plan collection, used to compare the code's
extraction against the specification's wording. -/

/-- Spec wording, per event: "all `assistant` text blocks". -/
def assistantTextBlocks : LogEvent → List String
  | LogEvent.assistant (AssistantMessage.str s) => if pyStrip s ≠ "" then [s] else []
  | LogEvent.assistant (AssistantMessage.blocks bs) =>
      (bs.filter (fun b => b.btype = "text")).map (fun b => b.text)
  | _ => []

/-- Spec wording, per event: the text contributed by a `result` event. -/
def resultTexts : LogEvent → List String
  | LogEvent.result r => if pyStrip r ≠ "" then [r] else []
  | _ => []

/-- Amended spec collection: all assistant text blocks and the text of every
`result` event, in stream order. -/
def specPlanPartsAllResults (events : List LogEvent) : List String :=
  events.flatMap (fun e => assistantTextBlocks e ++ resultTexts e)

/-- The text of the final `result` event of the stream, if any. -/
def lastResultText (events : List LogEvent) : Option String :=
  events.foldl (fun acc e => match e with
    | LogEvent.result r => some r
    | _ => acc) none

/-- The collection exactly as the claim words it: all assistant text blocks
from the stream together with the FINAL result event's text. -/
def claimPlanParts (events : List LogEvent) : List String :=
  events.flatMap assistantTextBlocks ++
    (match lastResultText events with
     | some r => if pyStrip r ≠ "" then [r] else []
     | none => [])

/-- The claim's plan text: the claimed collection joined with double
newlines, or `"No plan generated."` when the collection is empty. -/
def claimPlanText (events : List LogEvent) : String :=
  match claimPlanParts events with
  | [] => "No plan generated."
  | parts => String.intercalate "\n\n" parts

/-! ## Integration pipeline (`Dispatcher._merge_test_push`) -/

/-- The configuration fields consulted by the pipeline and the executor. -/
structure MergeConfig where
  test_command : String
  push_to_remote : Bool
  max_merge_retries : Nat
deriving DecidableEq, Repr

/-- Outcome environment for the git subprocesses: for each attempt index,
whether the given command exits with return code 0.  Return codes of the
two fetches are ignored by the source, so they do not appear here. -/
structure GitEnv where
  merge_origin_main_ok : Nat → Bool
  tests_pass : Nat → Bool
  rebase_ok : Nat → Bool
  checkout_ok : Nat → Bool
  merge_to_main_ok : Nat → Bool
  push_ok : Nat → Bool

/-- The subprocess invocations the pipeline can make, in trace order.
The stale-`MERGE_HEAD` recovery between rebase and checkout is pure cleanup
(it never raises and never branches the control flow) and is not traced. -/
inductive GitOp
  | fetch_origin
  | merge_origin_main
  | run_tests
  | fetch_origin_main
  | rebase
  | rebase_abort
  | checkout_main
  | merge_task_branch
  | abort_merge
  | push
deriving DecidableEq, Repr

/-- The exceptions `_merge_test_push` can raise.  The interpolated return
codes and stderr snippets of the source messages are abstracted away; the
attempt counts that appear in the messages are kept. -/
inductive MergeError
  | cannot_merge_main (attempt : Nat)
  | tests_failed (attempt : Nat)
  | rebase_failed_after (attempts : Nat)
  | checkout_failed
  | merge_to_main_failed
  | push_failed
deriving DecidableEq, Repr

/-- Result of one iteration of the retry loop body: success (`break`), a
non-retryable raise, or a failure that retries while attempts remain and
raises the recorded error once they are exhausted. -/
inductive AttemptOutcome
  | success (ops : List GitOp)
  | fatal (err : MergeError) (ops : List GitOp)
  | retryable (err : MergeError) (ops : List GitOp)
deriving DecidableEq, Repr

/-- The commands executed during one loop iteration, whatever its outcome. -/
def AttemptOutcome.ops : AttemptOutcome → List GitOp
  | AttemptOutcome.success ops => ops
  | AttemptOutcome.fatal _ ops => ops
  | AttemptOutcome.retryable _ ops => ops

/-- One iteration of the loop body of `_merge_test_push` (lines 915-1022):
stage 1 (fetch + merge origin/main into the task branch; failure is fatal),
tests when `test_command` is non-empty (failure is fatal), then stage 2
(fetch main, rebase, checkout main, merge the task branch, push when
`push_to_remote`), where each stage-2 failure is retryable. -/
def attemptOnce (cfg : MergeConfig) (env : GitEnv) (attempt : Nat) : AttemptOutcome :=
  let ops := [GitOp.fetch_origin, GitOp.merge_origin_main]
  if env.merge_origin_main_ok attempt = false then
    AttemptOutcome.fatal (MergeError.cannot_merge_main attempt) ops
  else
    let testOps : List GitOp := if cfg.test_command ≠ "" then [GitOp.run_tests] else []
    let testsOk : Bool := if cfg.test_command ≠ "" then env.tests_pass attempt else true
    if testsOk = false then
      AttemptOutcome.fatal (MergeError.tests_failed attempt) (ops ++ testOps)
    else
      let ops := ops ++ testOps ++ [GitOp.fetch_origin_main, GitOp.rebase]
      if env.rebase_ok attempt = false then
        AttemptOutcome.retryable (MergeError.rebase_failed_after cfg.max_merge_retries)
          (ops ++ [GitOp.rebase_abort])
      else
        let ops := ops ++ [GitOp.checkout_main]
        if env.checkout_ok attempt = false then
          AttemptOutcome.retryable MergeError.checkout_failed ops
        else
          let ops := ops ++ [GitOp.merge_task_branch]
          if env.merge_to_main_ok attempt = false then
            AttemptOutcome.retryable MergeError.merge_to_main_failed (ops ++ [GitOp.abort_merge])
          else if cfg.push_to_remote then
            let ops := ops ++ [GitOp.push]
            if env.push_ok attempt = false then
              AttemptOutcome.retryable MergeError.push_failed ops
            else AttemptOutcome.success ops
          else AttemptOutcome.success ops

/-- The retry loop `for attempt in range(max_retries)` of `_merge_test_push`,
with `remaining = max_merge_retries - attempt` loop iterations left: when
the range is exhausted (`remaining = 0`) the loop falls through and the
function returns normally, raising nothing; a retryable failure continues
with the next attempt while `attempt < max_retries - 1` and raises its
recorded error otherwise.  Returns the outcome together with the trace of
executed commands. -/
def merge_test_push_go (cfg : MergeConfig) (env : GitEnv) :
    Nat → Nat → Except MergeError Unit × List GitOp
  | 0, _ => (Except.ok (), [])
  | Nat.succ remaining, attempt =>
    match attemptOnce cfg env attempt with
    | AttemptOutcome.success ops => (Except.ok (), ops)
    | AttemptOutcome.fatal e ops => (Except.error e, ops)
    | AttemptOutcome.retryable e ops =>
      if attempt < cfg.max_merge_retries - 1 then
        let next := merge_test_push_go cfg env remaining (attempt + 1)
        (next.1, ops ++ next.2)
      else (Except.error e, ops)

/-- The loop resumed at a given attempt index (so the whole loop is
`merge_test_push_from cfg env 0`). -/
def merge_test_push_from (cfg : MergeConfig) (env : GitEnv) (attempt : Nat) :
    Except MergeError Unit × List GitOp :=
  merge_test_push_go cfg env (cfg.max_merge_retries - attempt) attempt

/-- Method `Dispatcher._merge_test_push`: the loop started at attempt 0. -/
def merge_test_push (cfg : MergeConfig) (env : GitEnv) :
    Except MergeError Unit × List GitOp :=
  merge_test_push_from cfg env 0

/-! ## Full task execution (`Dispatcher._execute_full`) -/

/-- Environment of one full execution run: worktree creation outcome, the
stop flag as observed after the read loop, and the worker's exit code. -/
structure ExecEnv where
  git : GitEnv
  worktree_add_ok : Bool
  stopped : Bool
  worker_exit : Int

/-- The exceptions arising inside `_execute_full`. -/
inductive ExecError
  | no_ports
  | worktree_add_failed
  | aborted
  | worker_exit (code : Int)
  | merge_failed (e : MergeError)
deriving DecidableEq, Repr

/-- The message skeletons of the `_merge_test_push` exceptions (return codes
and stderr are abstracted away; the rebase-exhaustion message keeps the
attempt count exactly as the source interpolates `max_retries`). -/
def MergeError.render (task_id : String) : MergeError → String
  | MergeError.cannot_merge_main _ => "Cannot merge origin/main into task/" ++ task_id
  | MergeError.tests_failed _ => "Tests failed in task/" ++ task_id
  | MergeError.rebase_failed_after n =>
      "Rebase failed after " ++ toString n ++ " attempts for task/" ++ task_id
  | MergeError.checkout_failed => "git checkout main failed"
  | MergeError.merge_to_main_failed => "git merge task/" ++ task_id ++ " failed"
  | MergeError.push_failed => "git push origin main failed"

/-- The `str(e)` recorded by the `except` handler of `_execute_full`. -/
def ExecError.render (task_id : String) : ExecError → String
  | ExecError.no_ports => "No ports available"
  | ExecError.worktree_add_failed => "git worktree add failed for " ++ task_id
  | ExecError.aborted => "Dispatcher stopped — task aborted"
  | ExecError.worker_exit c => "Claude Code exit code: " ++ toString c
  | ExecError.merge_failed e => MergeError.render task_id e

/-- The body of the `try` block of `_execute_full` after the claim: create
the worktree, run the worker, check the stop flag, check the exit code,
then run the integration pipeline. -/
def execute_full_body (cfg : MergeConfig) (env : ExecEnv) : Except ExecError Unit :=
  if env.worktree_add_ok = false then Except.error ExecError.worktree_add_failed
  else if env.stopped then Except.error ExecError.aborted
  else if env.worker_exit ≠ 0 then Except.error (ExecError.worker_exit env.worker_exit)
  else
    match (merge_test_push cfg env.git).1 with
    | Except.error e => Except.error (ExecError.merge_failed e)
    | Except.ok () => Except.ok ()

/-- Method `Dispatcher._execute_full` over the task store: the port is allocated
BEFORE the `try` block, so an allocation failure escapes the function
without touching the store (second component `some e` = the exception
escaped uncaught); inside the `try`, the task is claimed (the claim result
is not checked) and any raised exception is recorded by
`_mark_task_failed_json`, otherwise the task is marked completed. -/
def execute_full (cfg : MergeConfig) (pa : PortAllocator) (d : Disk)
    (task_id now : String) (env : ExecEnv) : Disk × Option ExecError :=
  match pa.allocate with
  | Except.error _ => (d, some ExecError.no_ports)
  | Except.ok (port, _) =>
    let claimed := claim_task_json d task_id (some port) now
    match execute_full_body cfg env with
    | Except.ok () => (mark_task_complete_json claimed.1 task_id now, none)
    | Except.error e =>
        (mark_task_failed_json claimed.1 task_id (ExecError.render task_id e) now, none)

/-! ## Concrete sample instances (used to instantiate the theorems below) -/

def sampleTask (status : String) : Task :=
  { id := "aaaa1111", title := "add", content := "do X", task_type := "feature",
    status := status, created := "2026-01-01T00:00:00+00:00",
    modified := "2026-01-01T00:00:00+00:00", worker_port := none, error := none,
    needs_plan_review := false, plan_content := none }

def sampleStore (status : String) : TaskStore :=
  [("aaaa1111", sampleTask status)]

def sampleCfg (test_command : String) (max_merge_retries : Nat) : MergeConfig :=
  { test_command := test_command, push_to_remote := true,
    max_merge_retries := max_merge_retries }

def allOkGitEnv : GitEnv :=
  { merge_origin_main_ok := fun _ => true, tests_pass := fun _ => true,
    rebase_ok := fun _ => true, checkout_ok := fun _ => true,
    merge_to_main_ok := fun _ => true, push_ok := fun _ => true }

/-- Every retryable stage-2 command (rebase, checkout, merge to main, push)
fails on every attempt; stage 1 and the tests succeed. -/
def stage2FailGitEnv : GitEnv :=
  { merge_origin_main_ok := fun _ => true, tests_pass := fun _ => true,
    rebase_ok := fun _ => false, checkout_ok := fun _ => false,
    merge_to_main_ok := fun _ => false, push_ok := fun _ => false }

/-- The stage-1 merge of origin/main into the task branch fails. -/
def stage1FailGitEnv : GitEnv :=
  { merge_origin_main_ok := fun _ => false, tests_pass := fun _ => true,
    rebase_ok := fun _ => true, checkout_ok := fun _ => true,
    merge_to_main_ok := fun _ => true, push_ok := fun _ => true }

/-! ## Association-list lemmas for the task store -/

theorem getTask_setTask_self (s : TaskStore) (task_id : String) (t : Task) :
    getTask (setTask s task_id t) task_id = some t := by
  induction s with
  | nil => simp [setTask, getTask]
  | cons hd tl ih =>
    obtain ⟨k, u⟩ := hd
    by_cases hk : k = task_id <;> simp [setTask, getTask, hk, ih]

theorem getTask_setTask_ne (s : TaskStore) (task_id k : String) (t : Task)
    (hk : k ≠ task_id) : getTask (setTask s task_id t) k = getTask s k := by
  induction s with
  | nil => simp [setTask, getTask, Ne.symm hk]
  | cons hd tl ih =>
    obtain ⟨k', u⟩ := hd
    by_cases hk' : k' = task_id
    · subst hk'
      simp [setTask, getTask, Ne.symm hk]
    · by_cases hkk : k' = k <;> simp [setTask, getTask, hk', hkk, hk, ih]

theorem mem_setTask {s : TaskStore} {task_id : String} {t : Task} {p : String × Task}
    (hp : p ∈ setTask s task_id t) : p = (task_id, t) ∨ p ∈ s := by
  induction s with
  | nil => simpa [setTask] using hp
  | cons hd tl ih =>
    obtain ⟨k, u⟩ := hd
    by_cases hk : k = task_id
    · rw [setTask, if_pos hk] at hp
      rcases List.mem_cons.mp hp with h | h
      · exact Or.inl h
      · exact Or.inr (List.mem_cons_of_mem _ h)
    · rw [setTask, if_neg hk] at hp
      rcases List.mem_cons.mp hp with h | h
      · exact Or.inr (h ▸ List.mem_cons_self _ _)
      · rcases ih h with h' | h'
        · exact Or.inl h'
        · exact Or.inr (List.mem_cons_of_mem _ h')

/-! ## Behaviour of the store operations on a task known to be present -/

theorem claim_task_json_pending (d : Disk) (task_id : String) (port : Option Nat)
    (now : String) (t : Task) (hg : getTask (load_dev_tasks d) task_id = some t)
    (hst : t.status = "pending") :
    claim_task_json d task_id port now =
      (Disk.valid (setTask (load_dev_tasks d) task_id
        { t with status := "in_progress", modified := now, worker_port := port }),
       some { t with status := "in_progress", modified := now, worker_port := port }) := by
  simp only [claim_task_json, hg]
  simp [hst, save_dev_tasks]

theorem mark_task_complete_json_get (d : Disk) (task_id now : String) (t : Task)
    (hg : getTask (load_dev_tasks d) task_id = some t) :
    mark_task_complete_json d task_id now =
      Disk.valid (setTask (load_dev_tasks d) task_id
        { t with status := "completed", modified := now, worker_port := none }) := by
  simp [mark_task_complete_json, hg, save_dev_tasks]

theorem mark_task_failed_json_get (d : Disk) (task_id error now : String) (t : Task)
    (hg : getTask (load_dev_tasks d) task_id = some t) :
    mark_task_failed_json d task_id error now =
      Disk.valid (setTask (load_dev_tasks d) task_id
        { t with
          status := "failed"
          modified := now
          worker_port := none
          error := some error }) := by
  simp [mark_task_failed_json, hg, save_dev_tasks]

/-! ## The worker-port invariant -/

/-- For every task in the store: if its status is not `in_progress` then its
`worker_port` is null. -/
def WorkerPortInv (s : TaskStore) : Prop :=
  ∀ p ∈ s, p.2.status ≠ "in_progress" → p.2.worker_port = none

theorem workerPortInv_nil : WorkerPortInv [] := by
  intro p hp
  cases hp

theorem workerPortInv_setTask {s : TaskStore} (hs : WorkerPortInv s) {t : Task}
    (ht : t.status ≠ "in_progress" → t.worker_port = none) (task_id : String) :
    WorkerPortInv (setTask s task_id t) := by
  intro p hp
  rcases mem_setTask hp with h | h
  · rw [h]
    exact ht
  · exact hs p h

theorem workerPortInv_add (d : Disk) (h : WorkerPortInv (load_dev_tasks d))
    (task_id title content task_type now : String) (npr : Bool) :
    WorkerPortInv (load_dev_tasks
      (add_task_to_json d task_id title content task_type npr now)) := by
  simp only [add_task_to_json, save_dev_tasks, load_dev_tasks]
  exact workerPortInv_setTask h (fun _ => rfl) task_id

theorem workerPortInv_claim (d : Disk) (h : WorkerPortInv (load_dev_tasks d))
    (task_id now : String) (port : Option Nat) :
    WorkerPortInv (load_dev_tasks (claim_task_json d task_id port now).1) := by
  simp only [claim_task_json]
  cases hg : getTask (load_dev_tasks d) task_id with
  | none => exact h
  | some t =>
    by_cases hst : t.status = "pending"
    · simp only [hst, ne_eq, not_true_eq_false, if_false, save_dev_tasks, load_dev_tasks]
      exact workerPortInv_setTask h (fun hne => absurd rfl hne) task_id
    · simp only [ne_eq, hst, not_false_eq_true, if_true]
      exact h

theorem workerPortInv_complete (d : Disk) (h : WorkerPortInv (load_dev_tasks d))
    (task_id now : String) :
    WorkerPortInv (load_dev_tasks (mark_task_complete_json d task_id now)) := by
  simp only [mark_task_complete_json]
  cases hg : getTask (load_dev_tasks d) task_id with
  | none => exact h
  | some t =>
    simp only [save_dev_tasks, load_dev_tasks]
    exact workerPortInv_setTask h (fun _ => rfl) task_id

theorem workerPortInv_failed (d : Disk) (h : WorkerPortInv (load_dev_tasks d))
    (task_id error now : String) :
    WorkerPortInv (load_dev_tasks (mark_task_failed_json d task_id error now)) := by
  simp only [mark_task_failed_json]
  cases hg : getTask (load_dev_tasks d) task_id with
  | none => exact h
  | some t =>
    simp only [save_dev_tasks, load_dev_tasks]
    exact workerPortInv_setTask h (fun _ => rfl) task_id

theorem workerPortInv_plan_review (d : Disk) (h : WorkerPortInv (load_dev_tasks d))
    (task_id now : String) (plan_content : Option String) :
    WorkerPortInv (load_dev_tasks (mark_task_plan_review_json d task_id plan_content now)) := by
  simp only [mark_task_plan_review_json]
  cases hg : getTask (load_dev_tasks d) task_id with
  | none => exact h
  | some t =>
    simp only [save_dev_tasks, load_dev_tasks]
    exact workerPortInv_setTask h (fun _ => rfl) task_id

theorem workerPortInv_pending (d : Disk) (h : WorkerPortInv (load_dev_tasks d))
    (task_id now : String) :
    WorkerPortInv (load_dev_tasks (mark_task_pending_json d task_id now)) := by
  simp only [mark_task_pending_json]
  cases hg : getTask (load_dev_tasks d) task_id with
  | none => exact h
  | some t =>
    simp only [save_dev_tasks, load_dev_tasks]
    exact workerPortInv_setTask h (fun _ => rfl) task_id

theorem workerPortInv_revise (d : Disk) (h : WorkerPortInv (load_dev_tasks d))
    (task_id feedback now : String) :
    ∀ d', revise_plan d task_id feedback now = Except.ok d' →
      WorkerPortInv (load_dev_tasks d') := by
  intro d' hd'
  simp only [revise_plan] at hd'
  cases hg : getTask (load_dev_tasks d) task_id with
  | none => rw [hg] at hd'; cases hd'
  | some t =>
    rw [hg] at hd'
    by_cases hst : t.status = "plan_review"
    · simp only [hst, ne_eq, not_true_eq_false, if_false, save_dev_tasks, Except.ok.injEq] at hd'
      subst hd'
      simp only [load_dev_tasks]
      exact workerPortInv_setTask h (fun _ => rfl) task_id
    · simp only [ne_eq, hst, not_false_eq_true, if_true] at hd'
      cases hd'

theorem workerPortInv_rerun (d : Disk) (h : WorkerPortInv (load_dev_tasks d))
    (task_id now : String) :
    ∀ d', rerun_task d task_id now = Except.ok d' →
      WorkerPortInv (load_dev_tasks d') := by
  intro d' hd'
  simp only [rerun_task] at hd'
  cases hg : getTask (load_dev_tasks d) task_id with
  | none => rw [hg] at hd'; cases hd'
  | some t =>
    rw [hg] at hd'
    by_cases hst : t.status = "failed"
    · simp only [hst, ne_eq, not_true_eq_false, if_false, save_dev_tasks, Except.ok.injEq] at hd'
      subst hd'
      simp only [load_dev_tasks]
      exact workerPortInv_setTask h (fun _ => rfl) task_id
    · simp only [ne_eq, hst, not_false_eq_true, if_true] at hd'
      cases hd'

/-! ## Port allocator lemmas -/

theorem allocate_ok_spec (pa : PortAllocator) (p : ℕ) (pa2 : PortAllocator)
    (h : pa.allocate = Except.ok (p, pa2)) :
    p ∈ pa.port_range ∧ p ∉ pa.in_use ∧
      (∀ q ∈ pa.port_range, q ∉ pa.in_use → p ≤ q) ∧
      pa2 = { pa with in_use := insert p pa.in_use } := by
  simp only [PortAllocator.allocate] at h
  split at h
  case isTrue hne =>
    rw [Except.ok.injEq, Prod.mk.injEq] at h
    obtain ⟨hp, hpa⟩ := h
    subst hp
    subst hpa
    have hmem := Finset.min'_mem _ hne
    rw [Finset.mem_sdiff] at hmem
    refine ⟨hmem.1, hmem.2, ?_, rfl⟩
    intro q hq hq2
    exact Finset.min'_le _ q (Finset.mem_sdiff.mpr ⟨hq, hq2⟩)
  case isFalse => cases h

theorem allocate_exhausted (pa : PortAllocator)
    (h : pa.port_range \ pa.in_use = ∅) :
    pa.allocate = Except.error "No ports available" := by
  have h' : ¬(pa.port_range \ pa.in_use).Nonempty := by
    rw [h]
    exact Finset.not_nonempty_empty
  simp only [PortAllocator.allocate]
  rw [dif_neg h']

/-! ## Pipeline lemmas -/

theorem attemptOnce_stage1_failure (cfg : MergeConfig) (env : GitEnv) (attempt : Nat)
    (hm : env.merge_origin_main_ok attempt = false) :
    attemptOnce cfg env attempt =
      AttemptOutcome.fatal (MergeError.cannot_merge_main attempt)
        [GitOp.fetch_origin, GitOp.merge_origin_main] := by
  simp [attemptOnce, hm]

theorem run_tests_not_mem_attemptOnce (cfg : MergeConfig) (env : GitEnv) (attempt : Nat)
    (h : cfg.test_command = "") :
    GitOp.run_tests ∉ (attemptOnce cfg env attempt).ops := by
  cases hm : env.merge_origin_main_ok attempt <;>
    cases hr : env.rebase_ok attempt <;>
      cases hc : env.checkout_ok attempt <;>
        cases hg : env.merge_to_main_ok attempt <;>
          cases hp : env.push_ok attempt <;>
            cases hpush : cfg.push_to_remote <;>
              simp [attemptOnce, AttemptOutcome.ops, h, hm, hr, hc, hg, hp, hpush]

theorem attemptOnce_stage2_head (cfg : MergeConfig) (env : GitEnv) (attempt : Nat)
    (h : cfg.test_command = "") (hm : env.merge_origin_main_ok attempt = true) :
    ∃ rest, (attemptOnce cfg env attempt).ops =
      GitOp.fetch_origin :: GitOp.merge_origin_main ::
        GitOp.fetch_origin_main :: GitOp.rebase :: rest := by
  cases hr : env.rebase_ok attempt <;>
    cases hc : env.checkout_ok attempt <;>
      cases hg : env.merge_to_main_ok attempt <;>
        cases hp : env.push_ok attempt <;>
          cases hpush : cfg.push_to_remote <;>
            simp [attemptOnce, AttemptOutcome.ops, h, hm, hr, hc, hg, hp, hpush]

theorem run_tests_not_mem_go (cfg : MergeConfig) (env : GitEnv)
    (h : cfg.test_command = "") :
    ∀ remaining attempt, GitOp.run_tests ∉ (merge_test_push_go cfg env remaining attempt).2 := by
  intro remaining
  induction remaining with
  | zero =>
    intro attempt
    simp [merge_test_push_go]
  | succ n ih =>
    intro attempt
    have hops := run_tests_not_mem_attemptOnce cfg env attempt h
    rw [merge_test_push_go]
    cases ho : attemptOnce cfg env attempt with
    | success ops =>
      rw [ho] at hops
      simpa [AttemptOutcome.ops] using hops
    | fatal e ops =>
      rw [ho] at hops
      simpa [AttemptOutcome.ops] using hops
    | retryable e ops =>
      rw [ho] at hops
      simp only [AttemptOutcome.ops] at hops
      by_cases hlt : attempt < cfg.max_merge_retries - 1
      · simp only [hlt, if_true, List.mem_append]
        intro hmem
        rcases hmem with hmem | hmem
        · exact hops hmem
        · exact ih (attempt + 1) hmem
      · simpa [hlt] using hops

theorem merge_test_push_from_stage1_failure (cfg : MergeConfig) (env : GitEnv)
    (attempt : Nat) (hlt : attempt < cfg.max_merge_retries)
    (hm : env.merge_origin_main_ok attempt = false) :
    merge_test_push_from cfg env attempt =
      (Except.error (MergeError.cannot_merge_main attempt),
       [GitOp.fetch_origin, GitOp.merge_origin_main]) := by
  unfold merge_test_push_from
  obtain ⟨k, hk⟩ : ∃ k, cfg.max_merge_retries - attempt = k + 1 :=
    ⟨cfg.max_merge_retries - attempt - 1, by omega⟩
  rw [hk, merge_test_push_go, attemptOnce_stage1_failure cfg env attempt hm]

theorem merge_test_push_from_stage2_direct (cfg : MergeConfig) (env : GitEnv)
    (attempt : Nat) (hlt : attempt < cfg.max_merge_retries)
    (h : cfg.test_command = "") (hm : env.merge_origin_main_ok attempt = true) :
    ∃ rest, (merge_test_push_from cfg env attempt).2 =
      GitOp.fetch_origin :: GitOp.merge_origin_main ::
        GitOp.fetch_origin_main :: GitOp.rebase :: rest := by
  unfold merge_test_push_from
  obtain ⟨k, hk⟩ : ∃ k, cfg.max_merge_retries - attempt = k + 1 :=
    ⟨cfg.max_merge_retries - attempt - 1, by omega⟩
  rw [hk, merge_test_push_go]
  obtain ⟨rest, hrest⟩ := attemptOnce_stage2_head cfg env attempt h hm
  cases ho : attemptOnce cfg env attempt with
  | success ops =>
    rw [ho] at hrest
    simp only [AttemptOutcome.ops] at hrest
    exact ⟨rest, by simp [hrest]⟩
  | fatal e ops =>
    rw [ho] at hrest
    simp only [AttemptOutcome.ops] at hrest
    exact ⟨rest, by simp [hrest]⟩
  | retryable e ops =>
    rw [ho] at hrest
    simp only [AttemptOutcome.ops] at hrest
    by_cases hl : attempt < cfg.max_merge_retries - 1
    · exact ⟨rest ++ (merge_test_push_go cfg env k (attempt + 1)).2, by simp [hl, hrest]⟩
    · exact ⟨rest, by simp [hl, hrest]⟩

/-- Direct computation of `allocate()` when a free port exists. -/
theorem allocate_eq_ok (pa : PortAllocator)
    (hne : (pa.port_range \ pa.in_use).Nonempty) :
    pa.allocate = Except.ok ((pa.port_range \ pa.in_use).min' hne,
      { pa with in_use := insert ((pa.port_range \ pa.in_use).min' hne) pa.in_use }) := by
  simp only [PortAllocator.allocate]
  rw [dif_pos hne]

/-! ## Claim theorems -/

/-- Claim C9: `allocate()` always returns the lowest port of the configured
range that is not currently in use, and fails with an exhaustion error when
no port is free; in particular for the range `[N, N]`, a second `allocate()`
without an intervening release fails with exhaustion. -/
theorem C9_allocate_lowest_free_and_exhaustion :
    (∀ pa p pa2, PortAllocator.allocate pa = Except.ok (p, pa2) →
      p ∈ pa.port_range ∧ p ∉ pa.in_use ∧
        (∀ q ∈ pa.port_range, q ∉ pa.in_use → p ≤ q) ∧
        pa2 = { pa with in_use := insert p pa.in_use }) ∧
    (∀ pa, pa.port_range \ pa.in_use = ∅ →
      PortAllocator.allocate pa = Except.error "No ports available") ∧
    (∀ N, ∃ pa2, (PortAllocator.init N N).allocate = Except.ok (N, pa2) ∧
      pa2.allocate = Except.error "No ports available") := by
  refine ⟨allocate_ok_spec, allocate_exhausted, ?_⟩
  intro N
  have hne : ((PortAllocator.init N N).port_range \ (PortAllocator.init N N).in_use).Nonempty := by
    simp [PortAllocator.init]
  refine ⟨{ port_range := Finset.Icc N N, in_use := {N} }, ?_, ?_⟩
  · rw [allocate_eq_ok _ hne]
    simp [PortAllocator.init]
  · exact allocate_exhausted _ (by simp)

/-- Witness for C9: the boundary scenario at `N = 9200`. -/
theorem C9_witness :
    ∃ pa2, (PortAllocator.init 9200 9200).allocate = Except.ok (9200, pa2) ∧
      pa2.allocate = Except.error "No ports available" :=
  C9_allocate_lowest_free_and_exhaustion.2.2 9200

/-- Claim C2: the claim says that with no free ports the executor raises and
the task transitions to failed with an explanatory message; in the code
`allocate()` is called before the `try` block of `_execute_full`, so the
exhaustion exception escapes the executor uncaught and the task store is
left completely unchanged — the task is never marked failed. -/
theorem C2_port_exhaustion_escapes_executor
    (cfg : MergeConfig) (pa : PortAllocator) (d : Disk) (task_id now : String)
    (env : ExecEnv) (h : pa.port_range \ pa.in_use = ∅) :
    pa.allocate = Except.error "No ports available" ∧
    execute_full cfg pa d task_id now env = (d, some ExecError.no_ports) := by
  have ha := allocate_exhausted pa h
  exact ⟨ha, by simp only [execute_full, ha]⟩

/-- Witness for C2: a fully exhausted single-port allocator, a pending task
in the store, and a worker environment that would otherwise succeed. -/
theorem C2_witness :
    ({ port_range := {9200}, in_use := {9200} } : PortAllocator).port_range \
        ({ port_range := {9200}, in_use := {9200} } : PortAllocator).in_use = ∅ ∧
    execute_full (sampleCfg "pytest" 3) { port_range := {9200}, in_use := {9200} }
        (Disk.valid (sampleStore "pending")) "aaaa1111" "now"
        { git := allOkGitEnv, worktree_add_ok := true, stopped := false, worker_exit := 0 } =
      (Disk.valid (sampleStore "pending"), some ExecError.no_ports) := by
  refine ⟨by decide, ?_⟩
  exact (C2_port_exhaustion_escapes_executor (sampleCfg "pytest" 3) _
    (Disk.valid (sampleStore "pending")) "aaaa1111" "now"
    { git := allOkGitEnv, worktree_add_ok := true, stopped := false, worker_exit := 0 }
    (by decide)).2

/-- Claim C4: for every task whose status is not pending (or whose id is
absent), `_claim_task_json` returns null and leaves the store completely
unchanged (the same disk value is returned unmodified; nothing is saved). -/
theorem C4_claim_non_pending_returns_null_without_mutation
    (d : Disk) (task_id now : String) (port : Option Nat)
    (h : ∀ t, getTask (load_dev_tasks d) task_id = some t → t.status ≠ "pending") :
    claim_task_json d task_id port now = (d, none) := by
  simp only [claim_task_json]
  cases hg : getTask (load_dev_tasks d) task_id with
  | none => rfl
  | some t => simp [h t hg]

/-- Witness for C4: claiming a completed task returns null and the store is
untouched. -/
theorem C4_witness :
    (∀ t, getTask (load_dev_tasks (Disk.valid (sampleStore "completed"))) "aaaa1111" =
        some t → t.status ≠ "pending") ∧
    claim_task_json (Disk.valid (sampleStore "completed")) "aaaa1111" (some 9200) "now" =
      (Disk.valid (sampleStore "completed"), none) := by
  have h : ∀ t, getTask (load_dev_tasks (Disk.valid (sampleStore "completed"))) "aaaa1111" =
      some t → t.status ≠ "pending" := by
    intro t ht
    simp only [load_dev_tasks, sampleStore, sampleTask, getTask, if_pos] at ht
    injection ht with ht'
    rw [← ht']
    decide
  exact ⟨h, C4_claim_non_pending_returns_null_without_mutation
    (Disk.valid (sampleStore "completed")) "aaaa1111" "now" (some 9200) h⟩

/-- Claim C10: a missing, unreadable, or JSON-invalid `dev-tasks.json` silently
loads as the empty structure: every listing reports zero tasks, `claim`
returns null for every id without writing, and the next `add` persists a
store holding only the added task, discarding the corrupt contents. -/
theorem C10_corrupt_store_loads_empty (d : Disk)
    (hcorrupt : d = Disk.missing ∨ d = Disk.unreadable ∨ d = Disk.invalidJson) :
    load_dev_tasks d = [] ∧
    (∀ status, list_tasks status d = []) ∧
    (∀ task_id port now, claim_task_json d task_id port now = (d, none)) ∧
    (∀ task_id title content task_type npr now,
      add_task_to_json d task_id title content task_type npr now =
        Disk.valid [(task_id,
          { id := task_id, title := title, content := content, task_type := task_type,
            status := "pending", created := now, modified := now,
            worker_port := none, error := none,
            needs_plan_review := npr, plan_content := none })]) := by
  have hload : load_dev_tasks d = [] := by
    rcases hcorrupt with h | h | h <;> subst h <;> rfl
  refine ⟨hload, ?_, ?_, ?_⟩
  · intro status
    simp [list_tasks, hload]
  · intro task_id port now
    simp only [claim_task_json, hload, getTask]
  · intro task_id title content task_type npr now
    simp [add_task_to_json, hload, setTask, save_dev_tasks]

/-- Witness for C10: the invalid-JSON disk. -/
theorem C10_witness :
    list_tasks "pending" Disk.invalidJson = [] ∧
    claim_task_json Disk.invalidJson "aaaa1111" (some 9200) "now" =
      (Disk.invalidJson, none) ∧
    add_task_to_json Disk.invalidJson "aaaa1111" "add" "do X" "feature" false "now" =
      Disk.valid [("aaaa1111",
        { id := "aaaa1111", title := "add", content := "do X", task_type := "feature",
          status := "pending", created := "now", modified := "now",
          worker_port := none, error := none,
          needs_plan_review := false, plan_content := none })] := by
  have h := C10_corrupt_store_loads_empty Disk.invalidJson (Or.inr (Or.inr rfl))
  exact ⟨h.2.1 "pending", h.2.2.1 "aaaa1111" (some 9200) "now",
    h.2.2.2 "aaaa1111" "add" "do X" "feature" false "now"⟩

/-- Claim C5: every task-store operation (add, claim, complete, fail,
to_plan_review, to_pending, revise, rerun) preserves the invariant that a
task whose status is not `in_progress` has a null `worker_port`. -/
theorem C5_worker_port_invariant_preserved
    (d : Disk) (h : WorkerPortInv (load_dev_tasks d))
    (task_id title content task_type feedback error now : String)
    (npr : Bool) (port : Option Nat) (plan_content : Option String) :
    WorkerPortInv (load_dev_tasks
      (add_task_to_json d task_id title content task_type npr now)) ∧
    WorkerPortInv (load_dev_tasks (claim_task_json d task_id port now).1) ∧
    WorkerPortInv (load_dev_tasks (mark_task_complete_json d task_id now)) ∧
    WorkerPortInv (load_dev_tasks (mark_task_failed_json d task_id error now)) ∧
    WorkerPortInv (load_dev_tasks (mark_task_plan_review_json d task_id plan_content now)) ∧
    WorkerPortInv (load_dev_tasks (mark_task_pending_json d task_id now)) ∧
    (∀ d', revise_plan d task_id feedback now = Except.ok d' →
      WorkerPortInv (load_dev_tasks d')) ∧
    (∀ d', rerun_task d task_id now = Except.ok d' →
      WorkerPortInv (load_dev_tasks d')) :=
  ⟨workerPortInv_add d h task_id title content task_type now npr,
   workerPortInv_claim d h task_id now port,
   workerPortInv_complete d h task_id now,
   workerPortInv_failed d h task_id error now,
   workerPortInv_plan_review d h task_id now plan_content,
   workerPortInv_pending d h task_id now,
   workerPortInv_revise d h task_id feedback now,
   workerPortInv_rerun d h task_id now⟩

/-- Witness for C5: the invariant holds of the empty store and is carried
through an `add` followed by a `claim` with a port. -/
theorem C5_witness :
    WorkerPortInv (load_dev_tasks Disk.missing) ∧
    WorkerPortInv (load_dev_tasks
      (add_task_to_json Disk.missing "aaaa1111" "add" "do X" "feature" false "now")) ∧
    WorkerPortInv (load_dev_tasks
      (claim_task_json Disk.missing "aaaa1111" (some 9200) "now").1) := by
  have h : WorkerPortInv (load_dev_tasks Disk.missing) := workerPortInv_nil
  have hc := C5_worker_port_invariant_preserved Disk.missing h
    "aaaa1111" "add" "do X" "feature" "fb" "err" "now" false (some 9200) none
  exact ⟨h, hc.1, hc.2.1⟩

/-- Claim C7: for every task in status `plan_review`, the revise-plan endpoint
sets the status to pending, clears `plan_content`, and appends the supplied
feedback to the task's content (wrapped in a `## Revision Feedback` section,
only when the feedback is not whitespace-only); all other tasks' fields are
unchanged. -/
theorem C7_revise_plan_moves_to_pending
    (d : Disk) (task_id feedback now : String) (t : Task)
    (hg : getTask (load_dev_tasks d) task_id = some t)
    (hst : t.status = "plan_review") :
    ∃ s', revise_plan d task_id feedback now = Except.ok (Disk.valid s') ∧
      getTask s' task_id = some
        { t with
          content :=
            if pyStrip feedback ≠ "" then
              t.content ++ "\n\n## Revision Feedback\n\n" ++ feedback ++ "\n"
            else t.content
          plan_content := none
          status := "pending"
          modified := now
          worker_port := none } ∧
      (∀ k, k ≠ task_id → getTask s' k = getTask (load_dev_tasks d) k) := by
  have h1 : revise_plan d task_id feedback now =
      Except.ok (Disk.valid (setTask (load_dev_tasks d) task_id
        { t with
          content :=
            if pyStrip feedback ≠ "" then
              t.content ++ "\n\n## Revision Feedback\n\n" ++ feedback ++ "\n"
            else t.content
          plan_content := none
          status := "pending"
          modified := now
          worker_port := none })) := by
    simp only [revise_plan, hg]
    simp [hst, save_dev_tasks]
  exact ⟨_, h1, getTask_setTask_self _ _ _, fun k hk => getTask_setTask_ne _ _ _ _ hk⟩

/-- Witness for C7: revising a concrete `plan_review` task with non-blank
feedback. -/
theorem C7_witness :
    ∃ s', revise_plan (Disk.valid (sampleStore "plan_review")) "aaaa1111" "Add tests" "now" =
        Except.ok (Disk.valid s') ∧
      getTask s' "aaaa1111" = some
        { sampleTask "plan_review" with
          content :=
            if pyStrip "Add tests" ≠ "" then
              (sampleTask "plan_review").content ++ "\n\n## Revision Feedback\n\n" ++
                "Add tests" ++ "\n"
            else (sampleTask "plan_review").content
          plan_content := none
          status := "pending"
          modified := "now"
          worker_port := none } ∧
      (∀ k, k ≠ "aaaa1111" →
        getTask s' k = getTask (load_dev_tasks (Disk.valid (sampleStore "plan_review"))) k) :=
  C7_revise_plan_moves_to_pending (Disk.valid (sampleStore "plan_review"))
    "aaaa1111" "Add tests" "now" (sampleTask "plan_review") rfl rfl

/-- Claim C8: with an empty `test_command`, the integration pipeline runs no
test subprocess at all on any attempt, and after a successful stage-1 merge
the trace continues directly with stage 2 (fetch of main and rebase). -/
theorem C8_empty_test_command_skips_tests
    (cfg : MergeConfig) (env : GitEnv) (attempt : Nat)
    (h : cfg.test_command = "") :
    GitOp.run_tests ∉ (merge_test_push_from cfg env attempt).2 ∧
    (attempt < cfg.max_merge_retries → env.merge_origin_main_ok attempt = true →
      ∃ rest, (merge_test_push_from cfg env attempt).2 =
        GitOp.fetch_origin :: GitOp.merge_origin_main ::
          GitOp.fetch_origin_main :: GitOp.rebase :: rest) :=
  ⟨run_tests_not_mem_go cfg env h (cfg.max_merge_retries - attempt) attempt,
   fun hlt hm => merge_test_push_from_stage2_direct cfg env attempt hlt h hm⟩

/-- Witness for C8: the pipeline with empty `test_command` at attempt 0. -/
theorem C8_witness :
    GitOp.run_tests ∉ (merge_test_push_from (sampleCfg "" 3) allOkGitEnv 0).2 ∧
    ∃ rest, (merge_test_push_from (sampleCfg "" 3) allOkGitEnv 0).2 =
      GitOp.fetch_origin :: GitOp.merge_origin_main ::
        GitOp.fetch_origin_main :: GitOp.rebase :: rest := by
  have h := C8_empty_test_command_skips_tests (sampleCfg "" 3) allOkGitEnv 0 rfl
  exact ⟨h.1, h.2 (by decide) rfl⟩

/-- Per event, the code's extraction loop contributes exactly the assistant
text blocks followed by the result text of that event. -/
theorem planPartsOfEvent_eq_spec (e : LogEvent) :
    planPartsOfEvent e = assistantTextBlocks e ++ resultTexts e := by
  cases e with
  | assistant msg =>
    cases msg with
    | str s => simp [planPartsOfEvent, assistantTextBlocks, resultTexts]
    | blocks bs =>
      simp only [planPartsOfEvent, assistantTextBlocks, resultTexts, List.append_nil]
      induction bs with
      | nil => rfl
      | cons b bs ih =>
        by_cases hb : b.btype = "text" <;> simp [hb, ih]
  | tool_use tool => rfl
  | error_event err => rfl
  | result r => simp [planPartsOfEvent, assistantTextBlocks, resultTexts]
  | unknown => rfl

/-- Claim C6, counterexample: on the stream `[result "A", result "B"]` the code
collects BOTH result texts and stores `"A\n\nB"`, while the claim's
collection — all assistant text blocks together with only the FINAL result
event's text — yields `"B"`. -/
theorem C6_counterexample_two_results :
    extractPlanText [LogEvent.result "A", LogEvent.result "B"] = "A\n\nB" ∧
    claimPlanText [LogEvent.result "A", LogEvent.result "B"] = "B" ∧
    extractPlanText [LogEvent.result "A", LogEvent.result "B"] ≠
      claimPlanText [LogEvent.result "A", LogEvent.result "B"] := by
  refine ⟨?_, ?_, ?_⟩ <;> decide

/-- Claim C6, amended: the stored plan text is obtained by collecting all
assistant text blocks and the text of EVERY result event, in stream order,
concatenated with double-newline separators; if the collection is empty the
stored text is exactly `"No plan generated."`; the task then transitions to
`plan_review` carrying that text as its `plan_content`. -/
theorem C6_plan_extraction_amended :
    (∀ events, extractPlanParts events = specPlanPartsAllResults events) ∧
    (∀ events, extractPlanParts events = [] →
      extractPlanText events = "No plan generated.") ∧
    (∀ events, extractPlanParts events ≠ [] →
      extractPlanText events = String.intercalate "\n\n" (extractPlanParts events)) ∧
    (∀ d task_id now events t, getTask (load_dev_tasks d) task_id = some t →
      getTask (load_dev_tasks (plan_phase_store_result d task_id now events)) task_id =
        some { t with
          status := "plan_review"
          modified := now
          worker_port := none
          plan_content := some (extractPlanText events) }) := by
  refine ⟨?_, ?_, ?_, ?_⟩
  · intro events
    simp only [extractPlanParts, specPlanPartsAllResults]
    induction events with
    | nil => rfl
    | cons e es ih => simp [planPartsOfEvent_eq_spec, ih]
  · intro events h
    simp [extractPlanText, h]
  · intro events h
    rcases he : extractPlanParts events with _ | ⟨p, ps⟩
    · exact absurd he h
    · simp [extractPlanText, he]
  · intro d task_id now events t hg
    simp only [plan_phase_store_result, mark_task_plan_review_json, save_dev_tasks]
    rw [hg]
    exact getTask_setTask_self _ _ _

/-- Witness for the amended C6: the empty stream stores the placeholder, and
a one-assistant-event stream moves the task to `plan_review` with the
extracted text. -/
theorem C6_witness :
    extractPlanText ([] : List LogEvent) = "No plan generated." ∧
    getTask (load_dev_tasks (plan_phase_store_result (Disk.valid (sampleStore "in_progress"))
        "aaaa1111" "now" [LogEvent.assistant (AssistantMessage.str "plan A")])) "aaaa1111" =
      some { sampleTask "in_progress" with
        status := "plan_review"
        modified := "now"
        worker_port := none
        plan_content :=
          some (extractPlanText [LogEvent.assistant (AssistantMessage.str "plan A")]) } := by
  have h := C6_plan_extraction_amended
  exact ⟨h.2.1 [] rfl, h.2.2.2 (Disk.valid (sampleStore "in_progress")) "aaaa1111" "now"
    [LogEvent.assistant (AssistantMessage.str "plan A")] (sampleTask "in_progress") rfl⟩

/-- Claim C3: if stage 1's `git merge origin/main` into the task branch exits
nonzero, the pipeline raises immediately — the trace stops at the stage-1
merge and no retry is attempted regardless of how many attempts of
`max_merge_retries` remain — and the executor records the failure on the
task. -/
theorem C3_stage1_failure_aborts_without_retry :
    (∀ cfg env attempt, attempt < cfg.max_merge_retries →
      env.merge_origin_main_ok attempt = false →
      merge_test_push_from cfg env attempt =
        (Except.error (MergeError.cannot_merge_main attempt),
         [GitOp.fetch_origin, GitOp.merge_origin_main])) ∧
    (∀ cfg pa d task_id now env t,
      (pa.port_range \ pa.in_use).Nonempty →
      1 ≤ cfg.max_merge_retries →
      env.worktree_add_ok = true → env.stopped = false → env.worker_exit = 0 →
      env.git.merge_origin_main_ok 0 = false →
      getTask (load_dev_tasks d) task_id = some t → t.status = "pending" →
      ∃ t', getTask (load_dev_tasks (execute_full cfg pa d task_id now env).1) task_id =
          some t' ∧ t'.status = "failed" ∧
          t'.error = some ("Cannot merge origin/main into task/" ++ task_id)) := by
  refine ⟨merge_test_push_from_stage1_failure, ?_⟩
  intro cfg pa d task_id now env t hne hmax hwt hstop hexit hm hg hst
  obtain ⟨port, pa2, hpa⟩ : ∃ port pa2, pa.allocate = Except.ok (port, pa2) :=
    ⟨_, _, allocate_eq_ok pa hne⟩
  have hmtp := merge_test_push_from_stage1_failure cfg env.git 0 (by omega) hm
  have hbody : execute_full_body cfg env =
      Except.error (ExecError.merge_failed (MergeError.cannot_merge_main 0)) := by
    simp [execute_full_body, hwt, hstop, hexit, merge_test_push, hmtp]
  have hg1 : getTask (load_dev_tasks (claim_task_json d task_id (some port) now).1) task_id =
      some { t with status := "in_progress", modified := now, worker_port := some port } := by
    rw [claim_task_json_pending d task_id (some port) now t hg hst]
    exact getTask_setTask_self _ _ _
  have hfail := mark_task_failed_json_get ((claim_task_json d task_id (some port) now).1)
    task_id (ExecError.render task_id
      (ExecError.merge_failed (MergeError.cannot_merge_main 0))) now _ hg1
  simp only [execute_full, hpa, hbody]
  rw [hfail]
  exact ⟨_, getTask_setTask_self _ _ _, rfl, rfl⟩

/-- Witness for C3: a failing stage-1 merge with two retries remaining. -/
theorem C3_witness :
    merge_test_push_from (sampleCfg "pytest" 3) stage1FailGitEnv 0 =
      (Except.error (MergeError.cannot_merge_main 0),
       [GitOp.fetch_origin, GitOp.merge_origin_main]) ∧
    ∃ t', getTask (load_dev_tasks (execute_full (sampleCfg "pytest" 3)
        (PortAllocator.init 9200 9200) (Disk.valid (sampleStore "pending")) "aaaa1111" "now"
        { git := stage1FailGitEnv, worktree_add_ok := true, stopped := false,
          worker_exit := 0 }).1) "aaaa1111" = some t' ∧ t'.status = "failed" ∧
        t'.error = some ("Cannot merge origin/main into task/" ++ "aaaa1111") := by
  have h := C3_stage1_failure_aborts_without_retry
  refine ⟨h.1 (sampleCfg "pytest" 3) stage1FailGitEnv 0 (by decide) rfl, ?_⟩
  exact h.2 (sampleCfg "pytest" 3) (PortAllocator.init 9200 9200)
    (Disk.valid (sampleStore "pending")) "aaaa1111" "now"
    { git := stage1FailGitEnv, worktree_add_ok := true, stopped := false, worker_exit := 0 }
    (sampleTask "pending") (by decide) (by decide) rfl rfl rfl rfl rfl rfl

/-- Claim C1: the claim says that with `max_merge_retries = 0` a retryable
stage-2 failure immediately fails the task with a retry-exhaustion error
carrying the attempt count; in the code the loop is
`for attempt in range(max_retries)`, so with `max_merge_retries = 0` the
body never executes: the pipeline runs no command, raises nothing — even in
an environment where every retryable stage-2 operation would fail — and the
executor marks the task completed. -/
theorem C1_zero_retries_pipeline_never_runs :
    (∀ cfg env, cfg.max_merge_retries = 0 →
      merge_test_push cfg env = (Except.ok (), [])) ∧
    (∀ cfg pa d task_id now env t,
      cfg.max_merge_retries = 0 →
      (pa.port_range \ pa.in_use).Nonempty →
      env.worktree_add_ok = true → env.stopped = false → env.worker_exit = 0 →
      getTask (load_dev_tasks d) task_id = some t → t.status = "pending" →
      (execute_full cfg pa d task_id now env).2 = none ∧
      ∃ t', getTask (load_dev_tasks (execute_full cfg pa d task_id now env).1) task_id =
          some t' ∧ t'.status = "completed") := by
  have hmain : ∀ cfg env, cfg.max_merge_retries = 0 →
      merge_test_push cfg env = (Except.ok (), []) := by
    intro cfg env hcfg
    simp [merge_test_push, merge_test_push_from, hcfg, merge_test_push_go]
  refine ⟨hmain, ?_⟩
  intro cfg pa d task_id now env t hcfg hne hwt hstop hexit hg hst
  obtain ⟨port, pa2, hpa⟩ : ∃ port pa2, pa.allocate = Except.ok (port, pa2) :=
    ⟨_, _, allocate_eq_ok pa hne⟩
  have hbody : execute_full_body cfg env = Except.ok () := by
    simp [execute_full_body, hwt, hstop, hexit, hmain cfg env.git hcfg]
  have hg1 : getTask (load_dev_tasks (claim_task_json d task_id (some port) now).1) task_id =
      some { t with status := "in_progress", modified := now, worker_port := some port } := by
    rw [claim_task_json_pending d task_id (some port) now t hg hst]
    exact getTask_setTask_self _ _ _
  have hcomp := mark_task_complete_json_get ((claim_task_json d task_id (some port) now).1)
    task_id now _ hg1
  constructor
  · simp only [execute_full, hpa, hbody]
  · simp only [execute_full, hpa, hbody]
    rw [hcomp]
    exact ⟨_, getTask_setTask_self _ _ _, rfl⟩

/-- Witness for C1: `max_merge_retries = 0` with every retryable stage-2
command failing — the pipeline runs nothing and the task completes. -/
theorem C1_witness :
    merge_test_push (sampleCfg "pytest" 0) stage2FailGitEnv = (Except.ok (), []) ∧
    (execute_full (sampleCfg "pytest" 0) (PortAllocator.init 9200 9200)
        (Disk.valid (sampleStore "pending")) "aaaa1111" "now"
        { git := stage2FailGitEnv, worktree_add_ok := true, stopped := false,
          worker_exit := 0 }).2 = none ∧
    ∃ t', getTask (load_dev_tasks (execute_full (sampleCfg "pytest" 0)
        (PortAllocator.init 9200 9200) (Disk.valid (sampleStore "pending")) "aaaa1111" "now"
        { git := stage2FailGitEnv, worktree_add_ok := true, stopped := false,
          worker_exit := 0 }).1) "aaaa1111" = some t' ∧ t'.status = "completed" := by
  have h := C1_zero_retries_pipeline_never_runs
  have h2 := h.2 (sampleCfg "pytest" 0) (PortAllocator.init 9200 9200)
    (Disk.valid (sampleStore "pending")) "aaaa1111" "now"
    { git := stage2FailGitEnv, worktree_add_ok := true, stopped := false, worker_exit := 0 }
    (sampleTask "pending") rfl (by decide) rfl rfl rfl rfl rfl
  exact ⟨h.1 (sampleCfg "pytest" 0) stage2FailGitEnv rfl, h2.1, h2.2⟩

end Baton
